import Mathlib

/-!
# Neuroplay scoring / stats core — shallow embedding

This file embeds the behavioural core of the Neuroplay application
(scoring formulas, decision-task reward schedule and derived metrics,
streak / average bookkeeping, daily-challenge completion) as executable
Lean definitions, and proves the specification claims about them.

Conventions of the embedding:
* JavaScript numbers are modelled as `ℚ`; `Math.round` is `jsRound`
  (`⌊x + 1/2⌋`), `Math.min`/`Math.max` are `min`/`max`.
* Optional (possibly `undefined`) numeric fields are `Option ℚ`; the
  JavaScript falsy test `!x` (true for `undefined` and `0`) is `falsy`.
* `Date` values compared via `toDateString()` are modelled as calendar
  day numbers (`ℤ`); `new Date(Date.now() - 24*60*60*1000)` is `today - 1`.
-/

/-- The seven task types (`TaskType` in `types/performance.ts`). -/
inductive TaskType where
  | tappingSpeed
  | stroopTest
  | reactionTime
  | towerOfHanoi
  | spatialMemory
  | decisionTask
  | soundDiscrimination
deriving DecidableEq, Repr

/-- A single decision-task door choice. -/
inductive DoorChoice where
  | left
  | right
deriving DecidableEq, Repr

/-- Reward tier of a decision-task trial. -/
inductive RewardType where
  | high
  | low
  | none
deriving DecidableEq, Repr

/-- One recorded decision-task trial (the `Trial` record in
`decision-task.tsx`, also the element type of `TaskMetrics.choices`). -/
structure Trial where
  trial : ℕ
  choice : DoorChoice
  reward : ℚ
  rewardType : RewardType
  reactionTime : ℚ
deriving DecidableEq, Repr

/-- The JavaScript falsy test `!x` on an optional number: true when the
field is absent (`undefined`) or equal to `0`. -/
def falsy (o : Option ℚ) : Bool := o.getD 0 == 0

/-- The `Math.round` function: round half up, `⌊x + 1/2⌋` (stated via the executable
`Rat.floor` so that concrete scores evaluate by `decide`). -/
def jsRound (x : ℚ) : ℤ := Rat.floor (x + 1/2)

theorem jsRound_eq (x : ℚ) : jsRound x = ⌊x + 1/2⌋ := by
  rw [jsRound, Rat.floor_def' , Rat.floor_def]

/-- The metrics bag (`TaskMetrics` in `types/performance.ts`): one struct
with optional fields per task.  The list-valued fields that no scoring
formula reads (`reactionTimes`, `responses`, `accuracyByFrequency`) are
omitted; `choices` is kept as the decision-task trial log. -/
structure TaskMetrics where
  numberOfTaps : Option ℚ := .none
  duration : Option ℚ := .none
  correctAnswers : Option ℚ := .none
  incorrectAnswers : Option ℚ := .none
  averageReactionTime : Option ℚ := .none
  moves : Option ℚ := .none
  solveTime : Option ℚ := .none
  minMoves : Option ℚ := .none
  correctMatches : Option ℚ := .none
  totalAttempts : Option ℚ := .none
  sequenceLength : Option ℚ := .none
  leftDoorChoices : Option ℚ := .none
  rightDoorChoices : Option ℚ := .none
  totalReward : Option ℚ := .none
  adaptationRate : Option ℚ := .none
  riskTakingScore : Option ℚ := .none
  learningScore : Option ℚ := .none
  choices : Option (List Trial) := .none
  correctIdentifications : Option ℚ := .none
  incorrectIdentifications : Option ℚ := .none
  averageResponseTime : Option ℚ := .none
deriving DecidableEq

namespace ScoringService

/-- The pre-rounding piecewise-linear tapping score as a function of the
tap rate (taps per second); the `let score` chain of
`calculateTappingScore`. -/
def tappingRaw (tapsPerSecond : ℚ) : ℚ :=
  if tapsPerSecond ≥ 9 then 95 + min 5 ((tapsPerSecond - 9) * 2)
  else if tapsPerSecond ≥ 7 then 85 + ((tapsPerSecond - 7) / 2) * 10
  else if tapsPerSecond ≥ 5 then 70 + ((tapsPerSecond - 5) / 2) * 15
  else if tapsPerSecond ≥ 3 then 50 + ((tapsPerSecond - 3) / 2) * 20
  else if tapsPerSecond ≥ 1 then 20 + ((tapsPerSecond - 1) / 2) * 30
  else tapsPerSecond * 20

/-- Source `ScoringService.calculateTappingScore`. -/
def calculateTappingScore (metrics : TaskMetrics) : ℤ :=
  if falsy metrics.numberOfTaps || falsy metrics.duration then 0
  else
    let tapsPerSecond := metrics.numberOfTaps.getD 0 / (metrics.duration.getD 0 / 1000)
    min (jsRound (tappingRaw tapsPerSecond)) 100

/-- Source `ScoringService.calculateStroopScore`. -/
def calculateStroopScore (metrics : TaskMetrics) : ℤ :=
  if falsy metrics.correctAnswers || falsy metrics.incorrectAnswers ||
      falsy metrics.averageReactionTime then 0
  else
    let accuracy := metrics.correctAnswers.getD 0 /
      (metrics.correctAnswers.getD 0 + metrics.incorrectAnswers.getD 0)
    let speedBonus := max 0 ((2000 - metrics.averageReactionTime.getD 0) / 20)
    min (jsRound (accuracy * 70 + speedBonus)) 100

/-- Source `ScoringService.calculateReactionTimeScore`. -/
def calculateReactionTimeScore (metrics : TaskMetrics) : ℤ :=
  if falsy metrics.averageReactionTime then 0
  else
    let baseScore := max 0 ((1000 - metrics.averageReactionTime.getD 0) / 10)
    min (jsRound baseScore) 100

/-- Source `ScoringService.calculateTowerOfHanoiScore`. -/
def calculateTowerOfHanoiScore (metrics : TaskMetrics) : ℤ :=
  if falsy metrics.moves || falsy metrics.solveTime || falsy metrics.minMoves then 0
  else
    let efficiency := metrics.minMoves.getD 0 / metrics.moves.getD 0
    let timeBonus := max 0 ((120000 - metrics.solveTime.getD 0) / 1200)
    min (jsRound (efficiency * 60 + timeBonus)) 100

/-- Source `ScoringService.calculateSpatialMemoryScore`. -/
def calculateSpatialMemoryScore (metrics : TaskMetrics) : ℤ :=
  if falsy metrics.correctMatches || falsy metrics.totalAttempts ||
      falsy metrics.sequenceLength then 0
  else
    let accuracy := metrics.correctMatches.getD 0 / metrics.totalAttempts.getD 0
    let lengthBonus := metrics.sequenceLength.getD 0 * 5
    min (jsRound (accuracy * 70 + lengthBonus)) 100

/-- Source `ScoringService.calculateDecisionTaskScore`. -/
def calculateDecisionTaskScore (metrics : TaskMetrics) : ℤ :=
  if falsy metrics.totalReward || falsy metrics.adaptationRate ||
      falsy metrics.riskTakingScore || falsy metrics.learningScore then 0
  else
    let rewardScore := min (metrics.totalReward.getD 0 / 10) 40
    let adaptationScore := metrics.adaptationRate.getD 0 * 30
    let riskScore := metrics.riskTakingScore.getD 0 * 15
    let learningScorePoints := metrics.learningScore.getD 0 * 15
    min (jsRound (rewardScore + adaptationScore + riskScore + learningScorePoints)) 100

/-- Source `ScoringService.calculateSoundDiscriminationScore`. -/
def calculateSoundDiscriminationScore (metrics : TaskMetrics) : ℤ :=
  if falsy metrics.correctIdentifications || falsy metrics.incorrectIdentifications ||
      falsy metrics.averageResponseTime then 0
  else
    let accuracy := metrics.correctIdentifications.getD 0 /
      (metrics.correctIdentifications.getD 0 + metrics.incorrectIdentifications.getD 0)
    let speedBonus := max 0 ((3000 - metrics.averageResponseTime.getD 0) / 30)
    min (jsRound (accuracy * 80 + speedBonus)) 100

/-- Source `ScoringService.calculateScore`: dispatch on the task type. -/
def calculateScore (taskType : TaskType) (metrics : TaskMetrics) : ℤ :=
  match taskType with
  | .tappingSpeed => calculateTappingScore metrics
  | .stroopTest => calculateStroopScore metrics
  | .reactionTime => calculateReactionTimeScore metrics
  | .towerOfHanoi => calculateTowerOfHanoiScore metrics
  | .spatialMemory => calculateSpatialMemoryScore metrics
  | .decisionTask => calculateDecisionTaskScore metrics
  | .soundDiscrimination => calculateSoundDiscriminationScore metrics

/-- Source `ScoringService.calculateOverallScore`: the record argument is
modelled as an association list (its `Object.values` are the second
components). -/
def calculateOverallScore (scores : List (TaskType × ℚ)) : ℤ :=
  let values := (scores.map Prod.snd).filter (fun score => 0 < score)
  if values.length = 0 then 0
  else jsRound (values.foldl (fun sum score => sum + score) 0 / values.length)

end ScoringService

example : ScoringService.calculateTappingScore
    { numberOfTaps := some 52, duration := some 10000 } = 72 := by
  norm_num [ScoringService.calculateTappingScore, ScoringService.tappingRaw,
    falsy, jsRound_eq, Int.floor_eq_iff, min_def]

example : ScoringService.calculateOverallScore
    [(.tappingSpeed, 0), (.stroopTest, 80)] = 80 := by
  norm_num [ScoringService.calculateOverallScore, jsRound_eq, Int.floor_eq_iff]

example : ScoringService.calculateStroopScore
    { correctAnswers := some 18, incorrectAnswers := some 2,
      averageReactionTime := some 1200 } = 100 := by
  norm_num [ScoringService.calculateStroopScore, falsy, jsRound_eq,
    Int.floor_eq_iff, min_def, max_def]

/-- One persisted session (`UserPerformance` in `types/performance.ts`);
the `date` timestamp is kept as a calendar day number. -/
structure UserPerformance where
  id : String
  taskType : TaskType
  score : ℚ
  dateDay : ℤ
  metrics : TaskMetrics
deriving DecidableEq

/-- Source `DailyChallenge` in `types/performance.ts`. -/
structure DailyChallenge where
  id : String
  dateDay : ℤ
  tasks : List TaskType
  completed : Bool
  completedTasks : List TaskType
deriving DecidableEq

/-- Source `UserStats` in `types/performance.ts`; `averageScores` is the
`Record<TaskType, number>` as a total function, `lastActivityDay` the
calendar day of `lastActivity`. -/
structure UserStats where
  totalScore : ℚ
  streak : ℤ
  tasksCompleted : ℤ
  averageScores : TaskType → ℚ
  lastActivityDay : ℤ

namespace StorageService

/-- The default `UserStats` returned by `StorageService.getUserStats`
when nothing is stored: all-zero counters and `lastActivity = new
Date()`, i.e. the current day. -/
def defaultStats (today : ℤ) : UserStats :=
  { totalScore := 0
    streak := 0
    tasksCompleted := 0
    averageScores := fun _ => 0
    lastActivityDay := today }

/-- The streak computation inside `StorageService.updateUserStats`:
`yesterday` is `new Date(Date.now() - 24*60*60*1000).toDateString()`,
i.e. the day before `today`. -/
def newStreak (stats : UserStats) (today : ℤ) : ℤ :=
  if stats.lastActivityDay = today - 1 then stats.streak + 1
  else if stats.lastActivityDay ≠ today then 1
  else stats.streak

/-- Source `StorageService.updateUserStats`: `performances` is the full stored
history as read back by `getPerformances` (the caller `savePerformance`
has already appended the new performance to it). -/
def updateUserStats (stats : UserStats) (performances : List UserPerformance)
    (performance : UserPerformance) (today : ℤ) : UserStats :=
  let taskPerformances := performances.filter (fun p => p.taskType = performance.taskType)
  let averageScore :=
    (taskPerformances.foldl (fun sum p => sum + p.score) (0 : ℚ)) /
      (taskPerformances.length : ℚ)
  { stats with
    totalScore := stats.totalScore + performance.score
    tasksCompleted := stats.tasksCompleted + 1
    streak := newStreak stats today
    averageScores := fun t =>
      if t = performance.taskType then averageScore else stats.averageScores t
    lastActivityDay := today }

/-- Source `StorageService.savePerformance`: append the new performance to the
stored history, then update the user stats against the updated history. -/
def savePerformance (history : List UserPerformance) (stats : UserStats)
    (performance : UserPerformance) (today : ℤ) :
    List UserPerformance × UserStats :=
  let updated := history ++ [performance]
  (updated, updateUserStats stats updated performance today)

/-- Source `StorageService.markChallengeTaskComplete`, acting on today's
challenge (when one exists): if the task type is not already recorded,
push it onto `completedTasks` and recompute the `completed` flag. -/
def markChallengeTaskComplete (challenge : DailyChallenge) (taskType : TaskType) :
    DailyChallenge :=
  if challenge.completedTasks.contains taskType then challenge
  else
    let newCompletedTasks := challenge.completedTasks ++ [taskType]
    { challenge with
      completedTasks := newCompletedTasks
      completed := newCompletedTasks.length = challenge.tasks.length }

end StorageService

/-- A freshly generated daily challenge (`generateDailyChallenge` in
`challenges.tsx`): three selected tasks, nothing completed yet. -/
def freshChallenge (id : String) (dateDay : ℤ) (tasks : List TaskType) : DailyChallenge :=
  { id := id, dateDay := dateDay, tasks := tasks, completed := false, completedTasks := [] }

/-- Challenge states reachable from a freshly created challenge by
repeatedly saving performances (each save marks its task type on the
challenge via `updateUserStats` → `markChallengeTaskComplete`). -/
inductive ReachableChallenge : DailyChallenge → Prop where
  | fresh (id : String) (dateDay : ℤ) (tasks : List TaskType) :
      ReachableChallenge (freshChallenge id dateDay tasks)
  | step (c : DailyChallenge) (taskType : TaskType) :
      ReachableChallenge c →
      ReachableChallenge (StorageService.markChallengeTaskComplete c taskType)

/-- A game phase of the decision task (`GamePhase` in
`decision-task.tsx`). -/
structure GamePhase where
  phaseName : String
  startTrial : ℕ
  endTrial : ℕ
  leftProbability : ℚ
  rightProbability : ℚ
deriving DecidableEq

namespace DecisionTask

/-- The constant `gamePhases` table of `decision-task.tsx`. -/
def gamePhases : List GamePhase :=
  [ { phaseName := "Initial Learning", startTrial := 1, endTrial := 7,
      leftProbability := 0.8, rightProbability := 0.2 },
    { phaseName := "Probability Reversal", startTrial := 8, endTrial := 30,
      leftProbability := 0.3, rightProbability := 0.7 },
    { phaseName := "Frustration Period", startTrial := 31, endTrial := 40,
      leftProbability := 0.1, rightProbability := 0.1 },
    { phaseName := "Recovery", startTrial := 41, endTrial := 50,
      leftProbability := 0.6, rightProbability := 0.4 } ]

/-- Source `getCurrentPhase`: first phase whose inclusive trial range contains
the trial, falling back to `gamePhases[0]`. -/
def getCurrentPhase (trial : ℕ) : GamePhase :=
  (gamePhases.find? (fun phase => phase.startTrial ≤ trial && trial ≤ phase.endTrial)).getD
    { phaseName := "Initial Learning", startTrial := 1, endTrial := 7,
      leftProbability := 0.8, rightProbability := 0.2 }

/-- Constant `highReward` in `decision-task.tsx`. -/
def highReward : ℚ := 10

/-- Constant `lowReward` in `decision-task.tsx`. -/
def lowReward : ℚ := 2

/-- The reward-resolution logic of `handleDoorChoice`, as a pure function
of the trial number, the chosen door, and the uniform random draws:
`random1` is the first `Math.random()` call, `random2` the second one
(made only during the Frustration Period when the first draw is below
0.1). -/
def resolveReward (currentTrial : ℕ) (choice : DoorChoice) (random1 random2 : ℚ) :
    ℚ × RewardType :=
  let phase := getCurrentPhase currentTrial
  if 31 ≤ currentTrial ∧ currentTrial ≤ 40 then
    if random1 < 0.1 then
      let reward :=
        if choice = .left then
          (if random2 < phase.leftProbability then highReward else lowReward)
        else
          (if random2 < phase.rightProbability then highReward else lowReward)
      (reward, if reward = highReward then .high else .low)
    else (0, .none)
  else
    let probability :=
      if choice = .left then phase.leftProbability else phase.rightProbability
    if random1 < probability then (highReward, .high) else (lowReward, .low)

/-- Fraction of 'left' choices in a list of trials. -/
def leftRate (trials : List Trial) : ℚ :=
  ((trials.filter (fun t => t.choice = .left)).length : ℚ) / (trials.length : ℚ)

/-- The trials with numbers in `[transitionTrial - 3, transitionTrial)`. -/
def beforeTrials (trials : List Trial) (transitionTrial : ℕ) : List Trial :=
  trials.filter (fun t => transitionTrial - 3 ≤ t.trial ∧ t.trial < transitionTrial)

/-- The trials with numbers in `[transitionTrial, transitionTrial + 3)`. -/
def afterTrials (trials : List Trial) (transitionTrial : ℕ) : List Trial :=
  trials.filter (fun t => transitionTrial ≤ t.trial ∧ t.trial < transitionTrial + 3)

/-- The phase-transition trial numbers of `calculateMetrics`. -/
def phaseTransitions : List ℕ := [8, 31, 41]

/-- The `adaptationRate` metric of `calculateMetrics` in
`decision-task.tsx`: accumulate `|afterLeftRate − beforeLeftRate|` over
the phase transitions whose windows both contain recorded trials, then
divide by `phaseTransitions.length`. -/
def adaptationRate (trials : List Trial) : ℚ :=
  (phaseTransitions.foldl
    (fun adaptationScore transitionTrial =>
      if (beforeTrials trials transitionTrial).length ≠ 0 ∧
          (afterTrials trials transitionTrial).length ≠ 0 then
        adaptationScore +
          |leftRate (afterTrials trials transitionTrial) -
            leftRate (beforeTrials trials transitionTrial)|
      else adaptationScore)
    0) / (phaseTransitions.length : ℚ)

/-- Modelled from the claim's wording (for comparison with
`adaptationRate`, which is translated from the source): the average of
the per-transition absolute differences taken over the *non-skipped*
transitions only, i.e. skipped transitions are excluded from the
divisor as well as from the sum. -/
def specAdaptationRate (trials : List Trial) : ℚ :=
  let active := phaseTransitions.filter
    (fun transitionTrial =>
      (beforeTrials trials transitionTrial).length ≠ 0 ∧
      (afterTrials trials transitionTrial).length ≠ 0)
  ((active.map
    (fun transitionTrial =>
      |leftRate (afterTrials trials transitionTrial) -
        leftRate (beforeTrials trials transitionTrial)|)).sum) / (active.length : ℚ)

end DecisionTask

/-- A concrete completed session used in concrete instantiations. -/
def samplePerformance : UserPerformance :=
  { id := "tapping-1", taskType := .tappingSpeed, score := 72, dateDay := 0, metrics := {} }

/-- A concrete freshly generated challenge used in concrete instantiations. -/
def sampleChallenge : DailyChallenge :=
  freshChallenge "challenge-1" 0 [.tappingSpeed, .stroopTest, .reactionTime]

/-- The metric fields each scoring formula reads (and guards with the
falsy check) — `tapping-speed` reads `numberOfTaps` and `duration`, and
so on, following the seven formulas of `ScoringService`. -/
def requiredFields : TaskType → List (TaskMetrics → Option ℚ)
  | .tappingSpeed => [fun m => m.numberOfTaps, fun m => m.duration]
  | .stroopTest =>
      [fun m => m.correctAnswers, fun m => m.incorrectAnswers,
       fun m => m.averageReactionTime]
  | .reactionTime => [fun m => m.averageReactionTime]
  | .towerOfHanoi => [fun m => m.moves, fun m => m.solveTime, fun m => m.minMoves]
  | .spatialMemory =>
      [fun m => m.correctMatches, fun m => m.totalAttempts, fun m => m.sequenceLength]
  | .decisionTask =>
      [fun m => m.totalReward, fun m => m.adaptationRate,
       fun m => m.riskTakingScore, fun m => m.learningScore]
  | .soundDiscrimination =>
      [fun m => m.correctIdentifications, fun m => m.incorrectIdentifications,
       fun m => m.averageResponseTime]

/-- Validity of a metrics bag, per the contract: counts, durations and
times are nonnegative, and the decision-task derived metrics
(`adaptationRate`, `riskTakingScore`, `learningScore`) lie in `[0,1]`. -/
def ValidMetrics (m : TaskMetrics) : Bool :=
  decide (0 ≤ m.numberOfTaps.getD 0) && decide (0 ≤ m.duration.getD 0) &&
  decide (0 ≤ m.correctAnswers.getD 0) && decide (0 ≤ m.incorrectAnswers.getD 0) &&
  decide (0 ≤ m.averageReactionTime.getD 0) && decide (0 ≤ m.moves.getD 0) &&
  decide (0 ≤ m.solveTime.getD 0) && decide (0 ≤ m.minMoves.getD 0) &&
  decide (0 ≤ m.correctMatches.getD 0) && decide (0 ≤ m.totalAttempts.getD 0) &&
  decide (0 ≤ m.sequenceLength.getD 0) && decide (0 ≤ m.totalReward.getD 0) &&
  decide (0 ≤ m.adaptationRate.getD 0) && decide (m.adaptationRate.getD 0 ≤ 1) &&
  decide (0 ≤ m.riskTakingScore.getD 0) && decide (m.riskTakingScore.getD 0 ≤ 1) &&
  decide (0 ≤ m.learningScore.getD 0) && decide (m.learningScore.getD 0 ≤ 1) &&
  decide (0 ≤ m.correctIdentifications.getD 0) &&
  decide (0 ≤ m.incorrectIdentifications.getD 0) &&
  decide (0 ≤ m.averageResponseTime.getD 0)

/-- A concrete trial just before the first phase transition. -/
def sampleTrialA : Trial :=
  { trial := 7, choice := .left, reward := 2, rewardType := .low, reactionTime := 500 }

/-- A concrete trial just after the first phase transition. -/
def sampleTrialB : Trial :=
  { trial := 8, choice := .right, reward := 2, rewardType := .low, reactionTime := 500 }

theorem foldl_add_assoc {α : Type} (f : α → ℚ) (l : List α) (a : ℚ) :
    l.foldl (fun sum x => sum + f x) a = a + (l.map f).sum := by
  induction l generalizing a with
  | nil => simp
  | cons x xs ih => simp [ih, add_assoc]

theorem foldl_add_id (l : List ℚ) (a : ℚ) :
    l.foldl (fun sum score => sum + score) a = a + l.sum := by
  induction l generalizing a with
  | nil => simp
  | cons x xs ih => simp [ih, add_assoc]

/-- **C1** (corrected claim, counterexample to the original): with no
prior activity, `getUserStats` returns default stats whose
`lastActivity` is the current moment — i.e. today, not "never" — so the
first ever saved performance leaves the streak unchanged at `0`; it is
not reset to `1` as the claim states. -/
theorem claim_C1_counterexample :
    (StorageService.updateUserStats (StorageService.defaultStats 0)
      [samplePerformance] samplePerformance 0).streak ≠ 1 := by
  simp [StorageService.updateUserStats, StorageService.newStreak,
    StorageService.defaultStats]

/-- **C1** (amended): comparing calendar days, if the previous
`lastActivity` falls on yesterday the streak increments; if it falls on
today it is unchanged; in every other case (a gap of two or more days,
or a future day) it resets to exactly `1`.  With no prior activity at
all, the default stats' `lastActivity` is initialised to today, so that
case falls under "today": the streak is unchanged, remaining `0`. -/
theorem claim_C1_streak (stats : UserStats) (performances : List UserPerformance)
    (performance : UserPerformance) (today : ℤ) :
    (stats.lastActivityDay = today - 1 →
      (StorageService.updateUserStats stats performances performance today).streak =
        stats.streak + 1) ∧
    (stats.lastActivityDay = today →
      (StorageService.updateUserStats stats performances performance today).streak =
        stats.streak) ∧
    (stats.lastActivityDay ≠ today - 1 → stats.lastActivityDay ≠ today →
      (StorageService.updateUserStats stats performances performance today).streak = 1) ∧
    (StorageService.updateUserStats (StorageService.defaultStats today)
      performances performance today).streak = 0 := by
  refine ⟨fun h => ?_, fun h => ?_, fun h1 h2 => ?_, ?_⟩ <;>
    simp only [StorageService.updateUserStats, StorageService.newStreak,
      StorageService.defaultStats] <;>
    split_ifs <;> omega

/-- **C1** witness. -/
theorem claim_C1_streak_witness :
    (StorageService.updateUserStats (StorageService.defaultStats 1)
      [samplePerformance] samplePerformance 2).streak =
        (StorageService.defaultStats 1).streak + 1 :=
  (claim_C1_streak (StorageService.defaultStats 1) [samplePerformance]
    samplePerformance 2).1 (by norm_num [StorageService.defaultStats])

/-- **C9**: after a performance is saved (appended to the history, then
`updateUserStats` runs against the updated history), the stored average
for that performance's task type is the arithmetic mean of the `score`
field over all stored performances of that task type, the new one
included. -/
theorem claim_C9_average_roundtrip (history : List UserPerformance) (stats : UserStats)
    (performance : UserPerformance) (today : ℤ) (hne : history ≠ []) :
    ((StorageService.savePerformance history stats performance today).2).averageScores
        performance.taskType =
      (((history ++ [performance]).filter
          (fun q => q.taskType = performance.taskType)).map (fun q => q.score)).sum /
        ((((history ++ [performance]).filter
          (fun q => q.taskType = performance.taskType)).length : ℚ)) := by
  simp only [StorageService.savePerformance, StorageService.updateUserStats]
  simp [foldl_add_assoc]

/-- **C9** witness. -/
theorem claim_C9_average_roundtrip_witness :
    ((StorageService.savePerformance [samplePerformance] (StorageService.defaultStats 0)
        samplePerformance 0).2).averageScores samplePerformance.taskType =
      ((([samplePerformance] ++ [samplePerformance]).filter
          (fun q => q.taskType = samplePerformance.taskType)).map (fun q => q.score)).sum /
        (((([samplePerformance] ++ [samplePerformance]).filter
          (fun q => q.taskType = samplePerformance.taskType)).length : ℚ)) :=
  claim_C9_average_roundtrip [samplePerformance] (StorageService.defaultStats 0)
    samplePerformance 0 (by simp)

/-- **C10** (frame property): `updateUserStats` leaves the average-score
entries of every task type other than the saved performance's task type
unchanged (its only other effects are on `totalScore`, `tasksCompleted`,
`streak` and `lastActivity`, which together with `averageScores` exhaust
the `UserStats` fields). -/
theorem claim_C10_frame (stats : UserStats) (performances : List UserPerformance)
    (performance : UserPerformance) (today : ℤ) (t : TaskType)
    (h : t ≠ performance.taskType) :
    (StorageService.updateUserStats stats performances performance today).averageScores t =
      stats.averageScores t := by
  simp [StorageService.updateUserStats, h]

/-- **C10** witness. -/
theorem claim_C10_frame_witness :
    (StorageService.updateUserStats (StorageService.defaultStats 0)
        [samplePerformance] samplePerformance 0).averageScores .stroopTest =
      (StorageService.defaultStats 0).averageScores .stroopTest :=
  claim_C10_frame (StorageService.defaultStats 0) [samplePerformance]
    samplePerformance 0 .stroopTest (by decide)

/-- **C7**: `calculateOverallScore` returns the rounded arithmetic mean
of the strictly positive entries only, and `0` when no strictly positive
entry exists (in particular on the empty mapping); the mapping
`{tapping-speed: 0, stroop-test: 80}` yields `80`, not `40`. -/
theorem claim_C7_overall_score (scores : List (TaskType × ℚ)) :
    (((scores.map Prod.snd).filter (fun score => 0 < score)) = [] →
      ScoringService.calculateOverallScore scores = 0) ∧
    (((scores.map Prod.snd).filter (fun score => 0 < score)) ≠ [] →
      ScoringService.calculateOverallScore scores =
        jsRound (((scores.map Prod.snd).filter (fun score => 0 < score)).sum /
          ((((scores.map Prod.snd).filter (fun score => 0 < score)).length : ℚ)))) ∧
    ScoringService.calculateOverallScore [(.tappingSpeed, 0), (.stroopTest, 80)] = 80 ∧
    ScoringService.calculateOverallScore [] = 0 := by
  refine ⟨fun h => ?_, fun h => ?_, ?_, ?_⟩
  · simp [ScoringService.calculateOverallScore, h]
  · have hlen : ((scores.map Prod.snd).filter (fun score => 0 < score)).length ≠ 0 := by
      simpa [List.length_eq_zero] using h
    simp [ScoringService.calculateOverallScore, hlen, foldl_add_id]
  · norm_num [ScoringService.calculateOverallScore, jsRound_eq, Int.floor_eq_iff]
  · simp [ScoringService.calculateOverallScore]

/-- **C4**: for every task type, if any metric field required by that
task's formula is absent or zero (falsy), `calculateScore` returns
exactly `0`; as a total Lean function it raises no error. -/
theorem claim_C4_missing_metric_zero (taskType : TaskType) (m : TaskMetrics)
    (h : ∃ f ∈ requiredFields taskType, falsy (f m) = true) :
    ScoringService.calculateScore taskType m = 0 := by
  obtain ⟨f, hf, hfm⟩ := h
  cases taskType <;> simp only [requiredFields, List.mem_cons, List.not_mem_nil,
    or_false] at hf
  case tappingSpeed =>
    rcases hf with rfl | rfl <;>
      simp [ScoringService.calculateScore, ScoringService.calculateTappingScore, hfm]
  case stroopTest =>
    rcases hf with rfl | rfl | rfl <;>
      simp [ScoringService.calculateScore, ScoringService.calculateStroopScore, hfm]
  case reactionTime =>
    rcases hf with rfl <;>
      simp [ScoringService.calculateScore, ScoringService.calculateReactionTimeScore, hfm]
  case towerOfHanoi =>
    rcases hf with rfl | rfl | rfl <;>
      simp [ScoringService.calculateScore, ScoringService.calculateTowerOfHanoiScore, hfm]
  case spatialMemory =>
    rcases hf with rfl | rfl | rfl <;>
      simp [ScoringService.calculateScore, ScoringService.calculateSpatialMemoryScore, hfm]
  case decisionTask =>
    rcases hf with rfl | rfl | rfl | rfl <;>
      simp [ScoringService.calculateScore, ScoringService.calculateDecisionTaskScore, hfm]
  case soundDiscrimination =>
    rcases hf with rfl | rfl | rfl <;>
      simp [ScoringService.calculateScore,
        ScoringService.calculateSoundDiscriminationScore, hfm]

/-- **C4** witness. -/
theorem claim_C4_missing_metric_zero_witness :
    ScoringService.calculateScore .tappingSpeed {} = 0 :=
  claim_C4_missing_metric_zero .tappingSpeed {}
    ⟨fun m => m.numberOfTaps, by simp [requiredFields], by rfl⟩

theorem jsRound_nonneg (x : ℚ) (hx : 0 ≤ x) : 0 ≤ jsRound x := by
  rw [jsRound_eq]
  exact Int.le_floor.mpr (by push_cast; linarith)

theorem clamp_bounds (x : ℚ) (hx : 0 ≤ x) :
    0 ≤ min (jsRound x) 100 ∧ min (jsRound x) 100 ≤ 100 :=
  ⟨le_min (jsRound_nonneg x hx) (by norm_num), min_le_right _ _⟩

theorem tappingRaw_nonneg (rate : ℚ) (hr : 0 ≤ rate) :
    0 ≤ ScoringService.tappingRaw rate := by
  have hmin : ∀ a : ℚ, 0 ≤ a → (0:ℚ) ≤ min 5 a :=
    fun a ha => le_min (by norm_num) ha
  unfold ScoringService.tappingRaw
  split_ifs with h1 h2 h3 h4 h5
  · have := hmin ((rate - 9) * 2) (by linarith)
    linarith
  · linarith
  · linarith
  · linarith
  · linarith
  · linarith

/-- **C5**: for every task type and every valid metrics bag (nonnegative
counts, durations and times; decision-task derived metrics in `[0,1]`),
`calculateScore` returns an integer (it is `ℤ`-valued by construction,
each raw value being rounded by `jsRound` and clamped above via
`min (jsRound raw) 100`) lying in `[0, 100]`. -/
theorem claim_C5_score_range (taskType : TaskType) (m : TaskMetrics)
    (h : ValidMetrics m = true) :
    0 ≤ ScoringService.calculateScore taskType m ∧
      ScoringService.calculateScore taskType m ≤ 100 := by
  simp only [ValidMetrics, Bool.and_eq_true, decide_eq_true_eq] at h
  obtain ⟨⟨⟨⟨⟨⟨⟨⟨⟨⟨⟨⟨⟨⟨⟨⟨⟨⟨⟨⟨hTaps, hDur⟩, hCA⟩, hIA⟩, hART⟩, hMoves⟩, hST⟩, hMM⟩,
    hCM⟩, hTA⟩, hSL⟩, hTR⟩, hAR0⟩, hAR1⟩, hRTS0⟩, hRTS1⟩, hLS0⟩, hLS1⟩,
    hCI⟩, hII⟩, hAResp⟩ := h
  cases taskType
  case tappingSpeed =>
    simp only [ScoringService.calculateScore, ScoringService.calculateTappingScore]
    split_ifs
    · norm_num
    · exact clamp_bounds _ (tappingRaw_nonneg _
        (div_nonneg hTaps (div_nonneg hDur (by norm_num))))
  case stroopTest =>
    simp only [ScoringService.calculateScore, ScoringService.calculateStroopScore]
    split_ifs
    · norm_num
    · exact clamp_bounds _ (add_nonneg
        (mul_nonneg (div_nonneg hCA (add_nonneg hCA hIA)) (by norm_num))
        (le_max_left 0 _))
  case reactionTime =>
    simp only [ScoringService.calculateScore, ScoringService.calculateReactionTimeScore]
    split_ifs
    · norm_num
    · exact clamp_bounds _ (le_max_left 0 _)
  case towerOfHanoi =>
    simp only [ScoringService.calculateScore, ScoringService.calculateTowerOfHanoiScore]
    split_ifs
    · norm_num
    · exact clamp_bounds _ (add_nonneg
        (mul_nonneg (div_nonneg hMM hMoves) (by norm_num)) (le_max_left 0 _))
  case spatialMemory =>
    simp only [ScoringService.calculateScore, ScoringService.calculateSpatialMemoryScore]
    split_ifs
    · norm_num
    · exact clamp_bounds _ (add_nonneg
        (mul_nonneg (div_nonneg hCM hTA) (by norm_num))
        (mul_nonneg hSL (by norm_num)))
  case decisionTask =>
    simp only [ScoringService.calculateScore, ScoringService.calculateDecisionTaskScore]
    split_ifs
    · norm_num
    · refine clamp_bounds _ (add_nonneg (add_nonneg (add_nonneg ?_ ?_) ?_) ?_)
      · exact le_min (div_nonneg hTR (by norm_num)) (by norm_num)
      · exact mul_nonneg hAR0 (by norm_num)
      · exact mul_nonneg hRTS0 (by norm_num)
      · exact mul_nonneg hLS0 (by norm_num)
  case soundDiscrimination =>
    simp only [ScoringService.calculateScore,
      ScoringService.calculateSoundDiscriminationScore]
    split_ifs
    · norm_num
    · exact clamp_bounds _ (add_nonneg
        (mul_nonneg (div_nonneg hCI (add_nonneg hCI hII)) (by norm_num))
        (le_max_left 0 _))

/-- **C5** witness. -/
theorem claim_C5_score_range_witness :
    0 ≤ ScoringService.calculateScore .tappingSpeed
        { numberOfTaps := some 52, duration := some 10000 } ∧
      ScoringService.calculateScore .tappingSpeed
        { numberOfTaps := some 52, duration := some 10000 } ≤ 100 :=
  claim_C5_score_range .tappingSpeed
    { numberOfTaps := some 52, duration := some 10000 } (by decide)

theorem tappingRaw_at_one : ScoringService.tappingRaw 1 = 20 := by
  norm_num [ScoringService.tappingRaw]

theorem tappingRaw_at_three : ScoringService.tappingRaw 3 = 50 := by
  norm_num [ScoringService.tappingRaw]

theorem tappingRaw_at_five : ScoringService.tappingRaw 5 = 70 := by
  norm_num [ScoringService.tappingRaw]

theorem tappingRaw_at_seven : ScoringService.tappingRaw 7 = 85 := by
  norm_num [ScoringService.tappingRaw]

theorem tappingRaw_at_nine : ScoringService.tappingRaw 9 = 95 := by
  norm_num [ScoringService.tappingRaw, min_def]

theorem tappingRaw_mono (r s : ℚ) (hr : 0 ≤ r) (hrs : r ≤ s) :
    ScoringService.tappingRaw r ≤ ScoringService.tappingRaw s := by
  simp only [ScoringService.tappingRaw, min_def]
  split_ifs <;> linarith

set_option maxHeartbeats 1600000 in
theorem tappingRaw_continuity (b : ℚ) (hb : b ∈ ([1, 3, 5, 7, 9] : List ℚ))
    (ε : ℚ) (hε : 0 < ε) :
    ∃ δ : ℚ, 0 < δ ∧ ∀ r : ℚ, |r - b| < δ →
      |ScoringService.tappingRaw r - ScoringService.tappingRaw b| < ε := by
  refine ⟨min 1 (ε / 20), lt_min (by norm_num) (by linarith), fun r hr => ?_⟩
  rw [lt_min_iff] at hr
  obtain ⟨hr1, hr2⟩ := hr
  rw [abs_lt] at hr1 hr2
  obtain ⟨hra, hrb⟩ := hr1
  obtain ⟨hrc, hrd⟩ := hr2
  simp only [List.mem_cons, List.not_mem_nil, or_false] at hb
  rcases hb with rfl | rfl | rfl | rfl | rfl <;>
    simp only [ScoringService.tappingRaw, min_def] <;>
    split_ifs <;>
    (rw [abs_lt]; constructor <;> linarith)

/-- **C6**: the pre-rounding tapping score as a function of the tap rate
is non-decreasing on the nonnegative rates and continuous (ε–δ) at each
piecewise breakpoint; the boundary rates `1, 3, 5, 7, 9` taps/sec map
exactly to `20, 50, 70, 85, 95`; and 52 taps in 10000 ms (rate 5.2)
scores exactly `72`. -/
theorem claim_C6_tapping_shape :
    (ScoringService.tappingRaw 1 = 20 ∧ ScoringService.tappingRaw 3 = 50 ∧
      ScoringService.tappingRaw 5 = 70 ∧ ScoringService.tappingRaw 7 = 85 ∧
      ScoringService.tappingRaw 9 = 95) ∧
    (∀ r s : ℚ, 0 ≤ r → r ≤ s →
      ScoringService.tappingRaw r ≤ ScoringService.tappingRaw s) ∧
    (∀ b : ℚ, b ∈ ([1, 3, 5, 7, 9] : List ℚ) → ∀ ε : ℚ, 0 < ε →
      ∃ δ : ℚ, 0 < δ ∧ ∀ r : ℚ, |r - b| < δ →
        |ScoringService.tappingRaw r - ScoringService.tappingRaw b| < ε) ∧
    ScoringService.calculateTappingScore
      { numberOfTaps := some 52, duration := some 10000 } = 72 := by
  refine ⟨⟨tappingRaw_at_one, tappingRaw_at_three, tappingRaw_at_five,
    tappingRaw_at_seven, tappingRaw_at_nine⟩, tappingRaw_mono,
    tappingRaw_continuity, ?_⟩
  norm_num [ScoringService.calculateTappingScore, ScoringService.tappingRaw,
    falsy, jsRound_eq, Int.floor_eq_iff, min_def]

/-- **C6** witness. -/
theorem claim_C6_tapping_shape_witness :
    ScoringService.tappingRaw 2 ≤ ScoringService.tappingRaw 4 ∧
    ∃ δ : ℚ, 0 < δ ∧ ∀ r : ℚ, |r - 3| < δ →
      |ScoringService.tappingRaw r - ScoringService.tappingRaw 3| < 1 :=
  ⟨claim_C6_tapping_shape.2.1 2 4 (by norm_num) (by norm_num),
   claim_C6_tapping_shape.2.2.1 3 (by simp) 1 (by norm_num)⟩

theorem getCurrentPhase_initial (t : ℕ) (h1 : 1 ≤ t) (h2 : t ≤ 7) :
    DecisionTask.getCurrentPhase t =
      { phaseName := "Initial Learning", startTrial := 1, endTrial := 7,
        leftProbability := 0.8, rightProbability := 0.2 } := by
  rw [DecisionTask.getCurrentPhase, DecisionTask.gamePhases,
    List.find?_cons_of_pos _ (by simp [h1, h2])]
  rfl

theorem getCurrentPhase_reversal (t : ℕ) (h1 : 8 ≤ t) (h2 : t ≤ 30) :
    DecisionTask.getCurrentPhase t =
      { phaseName := "Probability Reversal", startTrial := 8, endTrial := 30,
        leftProbability := 0.3, rightProbability := 0.7 } := by
  rw [DecisionTask.getCurrentPhase, DecisionTask.gamePhases,
    List.find?_cons_of_neg _ (by simp; omega),
    List.find?_cons_of_pos _ (by simp [h1, h2])]
  rfl

theorem getCurrentPhase_frustration (t : ℕ) (h1 : 31 ≤ t) (h2 : t ≤ 40) :
    DecisionTask.getCurrentPhase t =
      { phaseName := "Frustration Period", startTrial := 31, endTrial := 40,
        leftProbability := 0.1, rightProbability := 0.1 } := by
  rw [DecisionTask.getCurrentPhase, DecisionTask.gamePhases,
    List.find?_cons_of_neg _ (by simp; omega),
    List.find?_cons_of_neg _ (by simp; omega),
    List.find?_cons_of_pos _ (by simp [h1, h2])]
  rfl

theorem getCurrentPhase_recovery (t : ℕ) (h1 : 41 ≤ t) (h2 : t ≤ 50) :
    DecisionTask.getCurrentPhase t =
      { phaseName := "Recovery", startTrial := 41, endTrial := 50,
        leftProbability := 0.6, rightProbability := 0.4 } := by
  rw [DecisionTask.getCurrentPhase, DecisionTask.gamePhases,
    List.find?_cons_of_neg _ (by simp; omega),
    List.find?_cons_of_neg _ (by simp; omega),
    List.find?_cons_of_neg _ (by simp; omega),
    List.find?_cons_of_pos _ (by simp [h1, h2])]
  rfl

/-- **C8**: per-trial reward resolution for every trial `1..50`, door
choice and pair of uniform draws — outside the Frustration Period the
first draw is compared with the phase's probability for the chosen door
(`0.8/0.2` on trials 1–7, `0.3/0.7` on 8–30, `0.6/0.4` on 41–50) giving
`highReward` (10) below it and `lowReward` (2) otherwise; inside trials
31–40 a reward occurs only when the first draw is below `0.1`, its tier
then decided by a second draw against the phase's `0.1` door
probability, and otherwise the reward is `0` with type `none`. -/
theorem claim_C8_reward_resolution (t : ℕ) (choice : DoorChoice) (r1 r2 : ℚ) :
    (1 ≤ t → t ≤ 7 → DecisionTask.resolveReward t choice r1 r2 =
      if r1 < (if choice = .left then (0.8 : ℚ) else 0.2) then ((10 : ℚ), RewardType.high)
      else ((2 : ℚ), RewardType.low)) ∧
    (8 ≤ t → t ≤ 30 → DecisionTask.resolveReward t choice r1 r2 =
      if r1 < (if choice = .left then (0.3 : ℚ) else 0.7) then ((10 : ℚ), RewardType.high)
      else ((2 : ℚ), RewardType.low)) ∧
    (31 ≤ t → t ≤ 40 → DecisionTask.resolveReward t choice r1 r2 =
      if r1 < (0.1 : ℚ) then
        (if r2 < (0.1 : ℚ) then ((10 : ℚ), RewardType.high)
         else ((2 : ℚ), RewardType.low))
      else ((0 : ℚ), RewardType.none)) ∧
    (41 ≤ t → t ≤ 50 → DecisionTask.resolveReward t choice r1 r2 =
      if r1 < (if choice = .left then (0.6 : ℚ) else 0.4) then ((10 : ℚ), RewardType.high)
      else ((2 : ℚ), RewardType.low)) := by
  refine ⟨fun h1 h2 => ?_, fun h1 h2 => ?_, fun h1 h2 => ?_, fun h1 h2 => ?_⟩
  · simp only [DecisionTask.resolveReward, getCurrentPhase_initial t h1 h2]
    rw [if_neg (by omega : ¬(31 ≤ t ∧ t ≤ 40))]
    simp [DecisionTask.highReward, DecisionTask.lowReward]
  · simp only [DecisionTask.resolveReward, getCurrentPhase_reversal t h1 h2]
    rw [if_neg (by omega : ¬(31 ≤ t ∧ t ≤ 40))]
    simp [DecisionTask.highReward, DecisionTask.lowReward]
  · simp only [DecisionTask.resolveReward, getCurrentPhase_frustration t h1 h2]
    rw [if_pos (by omega : (31 ≤ t ∧ t ≤ 40))]
    simp only [ite_self, DecisionTask.highReward, DecisionTask.lowReward]
    split_ifs <;> norm_num at * <;> rfl
  · simp only [DecisionTask.resolveReward, getCurrentPhase_recovery t h1 h2]
    rw [if_neg (by omega : ¬(31 ≤ t ∧ t ≤ 40))]
    simp [DecisionTask.highReward, DecisionTask.lowReward]

/-- **C8** witness. -/
theorem claim_C8_reward_resolution_witness :
    DecisionTask.resolveReward 5 .left (1/2) 0 =
      if (1/2 : ℚ) < (if DoorChoice.left = .left then (0.8 : ℚ) else 0.2) then
        ((10 : ℚ), RewardType.high)
      else ((2 : ℚ), RewardType.low) :=
  (claim_C8_reward_resolution 5 .left (1/2) 0).1 (by norm_num) (by norm_num)

/-- **C2** (corrected claim, counterexample to the original):
`markChallengeTaskComplete` never checks that the task type belongs to
the challenge's `tasks`, so saving a performance for a task outside the
challenge changes `completedTasks` (and breaks the subset invariant):
marking `tower-of-hanoi` on a fresh challenge over
`[tapping-speed, stroop-test, reaction-time]` appends it. -/
theorem claim_C2_counterexample :
    (StorageService.markChallengeTaskComplete sampleChallenge
        .towerOfHanoi).completedTasks ≠ sampleChallenge.completedTasks ∧
    TaskType.towerOfHanoi ∉ sampleChallenge.tasks ∧
    ¬ ((StorageService.markChallengeTaskComplete sampleChallenge
        .towerOfHanoi).completedTasks ⊆
      (StorageService.markChallengeTaskComplete sampleChallenge .towerOfHanoi).tasks) := by
  refine ⟨?_, by decide, ?_⟩ <;>
    simp [StorageService.markChallengeTaskComplete, sampleChallenge, freshChallenge,
      List.subset_def]

/-- **C2** (amended): in every challenge state reachable from a freshly
created challenge (whose task list is nonempty — `generateDailyChallenge`
always picks three), `completedTasks` is duplicate-free and `completed`
is true iff `completedTasks` and `tasks` have equal length; but
`completedTasks` need not be a subset of `tasks`: marking any task type
not already in `completedTasks` appends it, whether or not it belongs to
`tasks`. -/
theorem claim_C2_challenge_invariant :
    (∀ c : DailyChallenge, ReachableChallenge c → c.tasks ≠ [] →
      c.completedTasks.Nodup ∧
        (c.completed = true ↔ c.completedTasks.length = c.tasks.length)) ∧
    (∀ (c : DailyChallenge) (taskType : TaskType), taskType ∉ c.completedTasks →
      (StorageService.markChallengeTaskComplete c taskType).completedTasks =
        c.completedTasks ++ [taskType]) := by
  constructor
  · intro c hc
    induction hc with
    | fresh id dateDay tasks =>
      intro hne
      refine ⟨List.nodup_nil, ?_⟩
      simp only [freshChallenge, List.length_nil]
      constructor
      · intro h
        exact absurd h (by simp)
      · intro h
        exact absurd (List.length_eq_zero.mp h.symm) hne
    | step c taskType hc ih =>
      intro hne
      by_cases hmem : taskType ∈ c.completedTasks
      · simpa [StorageService.markChallengeTaskComplete, hmem] using
          ih (by simpa [StorageService.markChallengeTaskComplete, hmem] using hne)
      · have htasks : (StorageService.markChallengeTaskComplete c taskType).tasks =
            c.tasks := by
          simp [StorageService.markChallengeTaskComplete, hmem]
        obtain ⟨ihnodup, _⟩ := ih (by rw [← htasks]; exact hne)
        refine ⟨?_, ?_⟩
        · simp [StorageService.markChallengeTaskComplete, hmem,
            List.nodup_append, ihnodup]
        · simp [StorageService.markChallengeTaskComplete, hmem]
  · intro c taskType h
    simp [StorageService.markChallengeTaskComplete, h]

/-- **C2** witness. -/
theorem claim_C2_challenge_invariant_witness :
    (sampleChallenge.completedTasks.Nodup ∧
      (sampleChallenge.completed = true ↔
        sampleChallenge.completedTasks.length = sampleChallenge.tasks.length)) ∧
    (StorageService.markChallengeTaskComplete sampleChallenge
        .tappingSpeed).completedTasks =
      sampleChallenge.completedTasks ++ [.tappingSpeed] :=
  ⟨claim_C2_challenge_invariant.1 sampleChallenge
      (ReachableChallenge.fresh "challenge-1" 0 [.tappingSpeed, .stroopTest, .reactionTime])
      (by decide),
   claim_C2_challenge_invariant.2 sampleChallenge .tappingSpeed (by decide)⟩


/-- **C3** (corrected claim, counterexample to the original): the code
accumulates the per-transition differences only over transitions with
recorded trials on both sides, but always divides by
`phaseTransitions.length` = 3 — it does not shrink the divisor.  For a
log with trials only around transition 8 the code yields `1/3` while the
claim's average over non-skipped transitions would be `1`. -/
theorem claim_C3_counterexample :
    DecisionTask.adaptationRate [sampleTrialA, sampleTrialB] ≠
      DecisionTask.specAdaptationRate [sampleTrialA, sampleTrialB] := by
  simp only [DecisionTask.adaptationRate, DecisionTask.specAdaptationRate,
    DecisionTask.phaseTransitions, DecisionTask.beforeTrials, DecisionTask.afterTrials,
    DecisionTask.leftRate, sampleTrialA, sampleTrialB,
    List.foldl_cons, List.foldl_nil, List.filter_cons, List.filter_nil,
    decide_eq_true_eq]
  have hrl : ¬(DoorChoice.right = DoorChoice.left) := by decide
  norm_num [List.filter_cons, List.filter_nil, hrl]

/-- **C3** (amended): `adaptationRate` equals the sum, over the
phase-transition trial numbers `8, 31, 41` whose 3-trial windows on both
sides contain recorded trials, of the absolute differences between the
'left'-choice fractions of the 3 trials immediately after and the 3
immediately before — divided by the fixed count 3 of transitions, so a
skipped transition still counts as a zero difference in the average. -/
theorem claim_C3_adaptation_rate (trials : List Trial) :
    DecisionTask.adaptationRate trials =
      ((DecisionTask.phaseTransitions.filter (fun transitionTrial =>
          (DecisionTask.beforeTrials trials transitionTrial).length ≠ 0 ∧
          (DecisionTask.afterTrials trials transitionTrial).length ≠ 0)).map
        (fun transitionTrial =>
          |DecisionTask.leftRate (DecisionTask.afterTrials trials transitionTrial) -
            DecisionTask.leftRate (DecisionTask.beforeTrials trials transitionTrial)|)).sum
        / 3 := by
  simp only [DecisionTask.adaptationRate, DecisionTask.phaseTransitions,
    List.foldl_cons, List.foldl_nil, List.filter_cons, List.filter_nil,
    decide_eq_true_eq]
  split_ifs <;>
    simp only [List.map_cons, List.map_nil, List.sum_cons, List.sum_nil,
      List.length_cons, List.length_nil] <;>
    push_cast <;> ring

/-- **C7** witness. -/
theorem claim_C7_overall_score_witness :
    ScoringService.calculateOverallScore [(.tappingSpeed, 50), (.stroopTest, 80)] =
      jsRound (((([((TaskType.tappingSpeed : TaskType), (50 : ℚ)),
            (.stroopTest, 80)].map Prod.snd).filter (fun score => 0 < score)).sum /
        ((((([((TaskType.tappingSpeed : TaskType), (50 : ℚ)),
            (.stroopTest, 80)].map Prod.snd).filter
              (fun score => 0 < score)).length : ℚ))))) :=
  (claim_C7_overall_score [(.tappingSpeed, 50), (.stroopTest, 80)]).2.1
    (by norm_num [List.filter, List.cons_ne_nil])
